import Mathlib

/-!
# Verification of the pcr_designer browser toggle handlers

Shallow embedding of the two client scripts of the repository:

* `src/mypkg/app/static/js/toggles.js` — guarded construction of five
  UI features (mode / primer / reference / probe button groups and the
  QC visibility panel) plus their click handlers;
* `src/mypkg/app/static/main.js` — an unguarded near-duplicate of the
  same wiring.

DOM elements are modelled by the pieces of state the handlers read and
write: a button is its source-data attribute (`Option String`, `none`
for an absent attribute, as `getAttribute` returns `null`) together
with its class list; `classList` operations are explicit functions on
`List String` reflecting `DOMTokenList` semantics (`add` is a no-op on
a present token, `remove` deletes the token, `toggle` returns whether
the token is present afterwards).  An input's `value` is an
`Option String` so that writing a `null` attribute read through is
represented verbatim.
-/

/-- `DOMTokenList.add t`: appends the token unless it is already present
(a present token is left in place, not moved). -/
def classAdd (t : String) (l : List String) : List String :=
  if t ∈ l then l else l ++ [t]

/-- `DOMTokenList.remove t`: deletes every occurrence of the token. -/
def classRemove (t : String) (l : List String) : List String :=
  l.filter (fun x => x != t)

/-- `DOMTokenList.toggle t`: removes a present token (returning `false`)
or appends an absent one (returning `true`); the returned `Bool` is
whether the token is present afterwards. -/
def classListToggle (t : String) (l : List String) : List String × Bool :=
  if t ∈ l then (classRemove t l, false) else (classAdd t l, true)

/-- A button element as seen by the handlers: its source-data attribute
(`data-mode`, `data-primer`, `data-ref` or `data-probe`; `none` when the
attribute is absent, since `getAttribute` then yields `null`) and its
class list. -/
structure Button where
  attr : Option String
  classes : List String
deriving Repr, DecidableEq

/-- State touched by one of the plain button-group handlers of
`toggles.js` (primer, lines 38–44; reference, lines 53–59; probe,
lines 68–74 — the three blocks are textually identical up to element
names) and of the corresponding blocks of `main.js`: the group's
buttons and the bound hidden input's value. -/
@[ext]
structure GroupState (n : Nat) where
  btns : Fin n → Button
  input : Option String

/-- State touched by the mode handler of `toggles.js` (lines 12–29) and
`main.js` (lines 7–23): the mode buttons, the hidden mode input and the
class lists of the two content sections. -/
@[ext]
structure ModeState (n : Nat) where
  modeBtns : Fin n → Button
  modeInput : Option String
  singleSection : List String
  multiSection : List String

/-- State touched by the QC-panel handler of `toggles.js` (lines 84–91)
and `main.js` (lines 68–74): the panel's class list and the toggle
button's `textContent`. -/
structure QcState where
  panelClasses : List String
  btnText : String
deriving Repr, DecidableEq

/-- The click handler attached to button `i` of a plain toggle group
(primer / reference / probe, identical in `toggles.js` and `main.js`):
read the source-data attribute, write it into the hidden input, strip
`"active"` from every button of the group, then add `"active"` to the
clicked button. -/
def groupClick {n : Nat} (s : GroupState n) (i : Fin n) : GroupState n :=
  { input := (s.btns i).attr
    btns := fun j =>
      let cleared : Button :=
        { s.btns j with classes := classRemove "active" (s.btns j).classes }
      if j = i then { cleared with classes := classAdd "active" cleared.classes }
      else cleared }

/-- The click handler attached to mode button `i` (`toggles.js`
lines 14–28, `main.js` lines 8–22): like `groupClick` on the mode
buttons and mode input, and additionally, when the read attribute
compares equal to `"single"` (JavaScript `mode === "single"`; a `null`
read never does), unhide the single-section and hide the multi-section,
else the inverse. -/
def modeClick {n : Nat} (s : ModeState n) (i : Fin n) : ModeState n :=
  let mode := (s.modeBtns i).attr
  { modeInput := mode
    modeBtns := fun j =>
      let cleared : Button :=
        { s.modeBtns j with classes := classRemove "active" (s.modeBtns j).classes }
      if j = i then { cleared with classes := classAdd "active" cleared.classes }
      else cleared
    singleSection :=
      if mode = some "single" then classRemove "hidden" s.singleSection
      else classAdd "hidden" s.singleSection
    multiSection :=
      if mode = some "single" then classAdd "hidden" s.multiSection
      else classRemove "hidden" s.multiSection }

/-- The QC-panel click handler (`toggles.js` lines 85–90, `main.js`
lines 71–74): toggle `"hidden"` on the panel's class list and set the
button label from the returned presence flag. -/
def qcClick (s : QcState) : QcState :=
  let r := classListToggle "hidden" s.panelClasses
  { panelClasses := r.1
    btnText := if r.2 then "Show QC Thresholds ▼" else "Hide QC Thresholds ▲" }

/-- Whether the QC panel currently carries the `"hidden"` marker. -/
def qcHidden (s : QcState) : Bool :=
  decide ("hidden" ∈ s.panelClasses)

/-- The label the QC handler writes for a given hidden-state: the
collapsed-state string when hidden, the expanded-state string when
shown (the ternary of `toggles.js` lines 87–89). -/
def qcLabel (h : Bool) : String :=
  if h then "Show QC Thresholds ▼" else "Hide QC Thresholds ▲"

/-- Label/visibility synchronisation of the QC panel: the button label
is exactly the one the handler would write for the current
hidden-state. -/
def qcSync (s : QcState) : Prop :=
  s.btnText = qcLabel (qcHidden s)

instance (s : QcState) : Decidable (qcSync s) := by
  unfold qcSync; infer_instance

/-- Presence of the elements each feature queries at page load
(`getElementById` results modelled as present/absent, `querySelectorAll`
results by their length). -/
structure Dom where
  modeInput : Bool
  singleSection : Bool
  multiSection : Bool
  modeBtnsCount : Nat
  primerInput : Bool
  primerBtnsCount : Nat
  referenceInput : Bool
  refBtnsCount : Nat
  probeInput : Bool
  probeBtnsCount : Nat
  qcToggleBtn : Bool
  qcPanel : Bool
deriving Repr, DecidableEq

/-- Number of click listeners each feature ends up attaching. -/
structure InitCounts where
  modeL : Nat
  primerL : Nat
  refL : Nat
  probeL : Nat
  qcL : Nat
deriving Repr, DecidableEq

/-- The `DOMContentLoaded` body of `toggles.js`: every feature is
wrapped in an existence guard (`if (modeInput && singleSection &&
multiSection && modeBtns.length > 0)`, …), so listeners are attached
only when all of the feature's elements are present, and no null
element is ever dereferenced — construction cannot throw, which the
`Except.ok` result records. -/
def togglesInit (d : Dom) : Except String InitCounts :=
  Except.ok
    { modeL :=
        if d.modeInput && d.singleSection && d.multiSection
            && decide (0 < d.modeBtnsCount) then d.modeBtnsCount else 0
      primerL :=
        if d.primerInput && decide (0 < d.primerBtnsCount) then d.primerBtnsCount else 0
      refL :=
        if d.referenceInput && decide (0 < d.refBtnsCount) then d.refBtnsCount else 0
      probeL :=
        if d.probeInput && decide (0 < d.probeBtnsCount) then d.probeBtnsCount else 0
      qcL := if d.qcToggleBtn && d.qcPanel then 1 else 0 }

/-- The top-level body of `main.js`: no existence guards.  Each
`querySelectorAll(...).forEach` attaches a listener to every matched
button regardless of whether the bound input or sections exist, and the
final `btn.addEventListener` (lines 71–74) dereferences the
`qc-toggle-btn` lookup unconditionally, so a DOM without that element
makes the script throw a `TypeError`. -/
def mainInit (d : Dom) : Except String InitCounts :=
  if d.qcToggleBtn then
    Except.ok
      { modeL := d.modeBtnsCount
        primerL := d.primerBtnsCount
        refL := d.refBtnsCount
        probeL := d.probeBtnsCount
        qcL := 1 }
  else
    Except.error "TypeError: Cannot read properties of null (reading addEventListener)"

/-! ## Basic lemmas about the class-list operations -/

theorem mem_classAdd {c t : String} {l : List String} :
    c ∈ classAdd t l ↔ c ∈ l ∨ c = t := by
  unfold classAdd
  by_cases h : t ∈ l
  · rw [if_pos h]
    constructor
    · exact Or.inl
    · rintro (hc | rfl) <;> [exact hc; exact h]
  · rw [if_neg h]
    simp

theorem mem_classRemove {c t : String} {l : List String} :
    c ∈ classRemove t l ↔ c ∈ l ∧ c ≠ t := by
  unfold classRemove
  simp [List.mem_filter, bne_iff_ne]

theorem self_mem_classAdd {t : String} {l : List String} :
    t ∈ classAdd t l :=
  mem_classAdd.mpr (Or.inr rfl)

theorem self_not_mem_classRemove {t : String} {l : List String} :
    t ∉ classRemove t l := by
  intro h
  exact ((mem_classRemove.mp h).2) rfl

theorem classRemove_classRemove {t : String} {l : List String} :
    classRemove t (classRemove t l) = classRemove t l := by
  unfold classRemove
  rw [List.filter_filter]
  apply List.filter_congr
  intro x _
  by_cases h : x = t <;> simp [h]

theorem classAdd_of_mem {t : String} {l : List String} (h : t ∈ l) :
    classAdd t l = l := by
  unfold classAdd
  exact if_pos h

theorem classAdd_classAdd {t : String} {l : List String} :
    classAdd t (classAdd t l) = classAdd t l :=
  classAdd_of_mem self_mem_classAdd

theorem classAdd_of_not_mem {t : String} {l : List String} (h : t ∉ l) :
    classAdd t l = l ++ [t] := by
  unfold classAdd
  simp [h]

theorem classRemove_append {t : String} {l₁ l₂ : List String} :
    classRemove t (l₁ ++ l₂) = classRemove t l₁ ++ classRemove t l₂ := by
  unfold classRemove
  rw [List.filter_append]

theorem classRemove_classAdd_classRemove {t : String} {l : List String} :
    classRemove t (classAdd t (classRemove t l)) = classRemove t l := by
  rw [classAdd_of_not_mem self_not_mem_classRemove, classRemove_append,
    classRemove_classRemove]
  have : classRemove t [t] = [] := by
    unfold classRemove
    simp
  rw [this, List.append_nil]

theorem self_mem_classAdd_iff {t : String} {l : List String} :
    t ∈ classAdd t l ↔ True :=
  iff_true_intro self_mem_classAdd

theorem self_mem_classRemove_iff {t : String} {l : List String} :
    t ∈ classRemove t l ↔ False :=
  iff_false_intro self_not_mem_classRemove

theorem mem_classAdd_of_ne {c t : String} (h : c ≠ t) {l : List String} :
    c ∈ classAdd t l ↔ c ∈ l := by
  rw [mem_classAdd]
  simp [h]

theorem mem_classRemove_of_ne {c t : String} (h : c ≠ t) {l : List String} :
    c ∈ classRemove t l ↔ c ∈ l := by
  rw [mem_classRemove]
  simp [h]

theorem mem_classListToggle_of_ne {c t : String} (h : c ≠ t) {l : List String} :
    c ∈ (classListToggle t l).1 ↔ c ∈ l := by
  unfold classListToggle
  by_cases hm : t ∈ l
  · rw [if_pos hm]
    exact mem_classRemove_of_ne h
  · rw [if_neg hm]
    exact mem_classAdd_of_ne h

/-! ## Sample states used by witnesses -/

/-- Two demo buttons, the first initially marked active. -/
def demoButtons : Fin 2 → Button := fun j =>
  if j = 0 then { attr := some "single", classes := ["mode-btn", "active"] }
  else { attr := some "multi", classes := ["mode-btn"] }

/-- A demo two-button toggle group. -/
def demoGroup : GroupState 2 :=
  { btns := demoButtons, input := none }

/-- A demo mode-group state with the multi section initially hidden. -/
def demoMode : ModeState 2 :=
  { modeBtns := demoButtons
    modeInput := none
    singleSection := []
    multiSection := ["hidden"] }

/-- A one-button group whose button has no source-data attribute. -/
def demoNoAttr : GroupState 1 :=
  { btns := fun _ => { attr := none, classes := ["probe-btn"] }
    input := some "x" }

/-- A one-button mode group whose button has no data-mode attribute. -/
def demoModeNoAttr : ModeState 1 :=
  { modeBtns := fun _ => { attr := none, classes := ["mode-btn"] }
    modeInput := some "single"
    singleSection := []
    multiSection := ["hidden"] }

/-- A DOM in which none of the queried elements exists. -/
def domEmpty : Dom :=
  { modeInput := false, singleSection := false, multiSection := false
    modeBtnsCount := 0, primerInput := false, primerBtnsCount := 0
    referenceInput := false, refBtnsCount := 0, probeInput := false
    probeBtnsCount := 0, qcToggleBtn := false, qcPanel := false }

/-- A DOM with every element present except the QC toggle button. -/
def domNoQcBtn : Dom :=
  { modeInput := true, singleSection := true, multiSection := true
    modeBtnsCount := 2, primerInput := true, primerBtnsCount := 2
    referenceInput := true, refBtnsCount := 2, probeInput := true
    probeBtnsCount := 2, qcToggleBtn := false, qcPanel := true }

/-! ## Claim theorems -/

theorem groupClick_active_iff {n : Nat} (s : GroupState n) (i j : Fin n) :
    "active" ∈ ((groupClick s i).btns j).classes ↔ j = i := by
  by_cases hj : j = i
  · subst hj
    simp [groupClick, self_mem_classAdd_iff]
  · simp [groupClick, hj, self_mem_classRemove_iff]

theorem modeClick_active_iff {m : Nat} (t : ModeState m) (k j : Fin m) :
    "active" ∈ ((modeClick t k).modeBtns j).classes ↔ j = k := by
  by_cases hj : j = k
  · subst hj
    simp [modeClick, self_mem_classAdd_iff]
  · simp [modeClick, hj, self_mem_classRemove_iff]

/-- C1: for every toggle group (mode via `modeClick`, primer / reference /
probe via `groupClick`) and every button `i` of the group, after the click
handler for `i` runs, a button carries the `"active"` class exactly when it
is `i` — so exactly one button is active, namely the clicked one, whatever
set of buttons was active before. -/
theorem active_marker_exclusive {n m : Nat} (s : GroupState n) (t : ModeState m)
    (i : Fin n) (k : Fin m) :
    (∀ j : Fin n, "active" ∈ ((groupClick s i).btns j).classes ↔ j = i) ∧
    (∀ j : Fin m, "active" ∈ ((modeClick t k).modeBtns j).classes ↔ j = k) :=
  ⟨groupClick_active_iff s i, modeClick_active_iff t k⟩

/-- C2: for every toggle group and every clicked button, the bound hidden
input's value after the click is exactly the clicked button's source-data
attribute value, written through verbatim (`none`, i.e. a `null`
`getAttribute` result, included). -/
theorem hidden_field_mirrors_clicked {n m : Nat} (s : GroupState n)
    (t : ModeState m) (i : Fin n) (k : Fin m) :
    (groupClick s i).input = (s.btns i).attr ∧
    (modeClick t k).modeInput = (t.modeBtns k).attr :=
  ⟨rfl, rfl⟩

/-- C3 (counterexample): the claim that constructing every controller
against a DOM with missing required elements raises no error is false for
`main.js`: with every element present except the QC toggle button, the
script's unconditional `btn.addEventListener` dereferences a `null`
lookup and throws a `TypeError`. -/
theorem mainInit_throws_without_qc_button :
    mainInit domNoQcBtn =
      Except.error
        "TypeError: Cannot read properties of null (reading addEventListener)" :=
  rfl

/-- C3 (amended): for the guarded script `toggles.js`, construction never
raises an error, and any feature with a missing required element (or an
empty button collection) attaches zero listeners. -/
theorem togglesInit_guarded (d : Dom) :
    ∃ c : InitCounts, togglesInit d = Except.ok c ∧
      ((d.modeInput && d.singleSection && d.multiSection
          && decide (0 < d.modeBtnsCount)) = false → c.modeL = 0) ∧
      ((d.primerInput && decide (0 < d.primerBtnsCount)) = false → c.primerL = 0) ∧
      ((d.referenceInput && decide (0 < d.refBtnsCount)) = false → c.refL = 0) ∧
      ((d.probeInput && decide (0 < d.probeBtnsCount)) = false → c.probeL = 0) ∧
      ((d.qcToggleBtn && d.qcPanel) = false → c.qcL = 0) := by
  refine ⟨_, rfl, ?_, ?_, ?_, ?_, ?_⟩ <;>
    · intro h
      simp [togglesInit, h]

/-- C3 (witness for the amended theorem): on the fully element-free DOM
every guard fails and each feature attaches zero listeners. -/
theorem togglesInit_guarded_witness :
    ∃ c : InitCounts, togglesInit domEmpty = Except.ok c ∧
      c.modeL = 0 ∧ c.primerL = 0 ∧ c.refL = 0 ∧ c.probeL = 0 ∧ c.qcL = 0 := by
  obtain ⟨c, hc, h1, h2, h3, h4, h5⟩ := togglesInit_guarded domEmpty
  exact ⟨c, hc, h1 (by decide), h2 (by decide), h3 (by decide),
    h4 (by decide), h5 (by decide)⟩

/-- C4: in the mode group, clicking a button whose data-mode value is
`"single"` leaves the single-section without the `"hidden"` class and puts
it on the multi-section; clicking a button with any other value (a missing
attribute included) does the inverse; and after every click exactly one of
the two sections is visible. -/
theorem mode_section_visibility {n : Nat} (s : ModeState n) (i : Fin n) :
    ((s.modeBtns i).attr = some "single" →
      "hidden" ∉ (modeClick s i).singleSection ∧
      "hidden" ∈ (modeClick s i).multiSection) ∧
    ((s.modeBtns i).attr ≠ some "single" →
      "hidden" ∈ (modeClick s i).singleSection ∧
      "hidden" ∉ (modeClick s i).multiSection) ∧
    ("hidden" ∉ (modeClick s i).singleSection ↔
      "hidden" ∈ (modeClick s i).multiSection) := by
  by_cases h : (s.modeBtns i).attr = some "single" <;>
    simp [modeClick, h, self_mem_classAdd_iff, self_mem_classRemove_iff]

/-- C4 (witness): clicking the `"single"` button of the demo mode group
makes the single-section visible and hides the multi-section, and exactly
one section is visible. -/
theorem mode_section_visibility_witness :
    ("hidden" ∉ (modeClick demoMode 0).singleSection ∧
      "hidden" ∈ (modeClick demoMode 0).multiSection) ∧
    ("hidden" ∉ (modeClick demoMode 0).singleSection ↔
      "hidden" ∈ (modeClick demoMode 0).multiSection) :=
  ⟨(mode_section_visibility demoMode 0).1 (by decide),
    (mode_section_visibility demoMode 0).2.2⟩

/-- C5 (counterexample): toggling the QC panel twice does not restore an
arbitrary initial label: starting from a visible panel labelled
`"Hello"`, two clicks end with the label `"Hide QC Thresholds ▲"`. -/
theorem qc_double_toggle_label_not_restored :
    (qcClick (qcClick { panelClasses := [], btnText := "Hello" })).btnText
      ≠ ({ panelClasses := [], btnText := "Hello" } : QcState).btnText := by
  decide

/-- C5 (amended): toggling the QC panel twice always restores the panel's
original hidden-state; it restores the toggle button's original label
provided the initial label was already in sync with the panel's state
(it is the label the handler itself writes for that state). -/
theorem qc_double_toggle (s : QcState) :
    qcHidden (qcClick (qcClick s)) = qcHidden s ∧
    (qcSync s → (qcClick (qcClick s)).btnText = s.btnText) := by
  by_cases h : "hidden" ∈ s.panelClasses
  · have h1 : qcClick s =
        { panelClasses := classRemove "hidden" s.panelClasses
          btnText := "Hide QC Thresholds ▲" } := by
      simp [qcClick, classListToggle, h]
    have h2 : qcClick (qcClick s) =
        { panelClasses := classAdd "hidden" (classRemove "hidden" s.panelClasses)
          btnText := "Show QC Thresholds ▼" } := by
      rw [h1]
      simp [qcClick, classListToggle, self_not_mem_classRemove]
    constructor
    · rw [h2]
      simp [qcHidden, h, self_mem_classAdd_iff]
    · intro hs
      rw [h2]
      rw [qcSync, qcLabel, qcHidden] at hs
      simp [h] at hs
      simpa using hs.symm
  · have h1 : qcClick s =
        { panelClasses := classAdd "hidden" s.panelClasses
          btnText := "Show QC Thresholds ▼" } := by
      simp [qcClick, classListToggle, h]
    have h2 : qcClick (qcClick s) =
        { panelClasses := classRemove "hidden" (classAdd "hidden" s.panelClasses)
          btnText := "Hide QC Thresholds ▲" } := by
      rw [h1]
      simp [qcClick, classListToggle, self_mem_classAdd]
    constructor
    · rw [h2]
      simp [qcHidden, h, self_mem_classRemove_iff]
    · intro hs
      rw [h2]
      rw [qcSync, qcLabel, qcHidden] at hs
      simp [h] at hs
      simpa using hs.symm

/-- C5 (witness): for the in-sync hidden start state the double toggle
restores both the hidden-state and the label. -/
theorem qc_double_toggle_witness :
    qcHidden (qcClick (qcClick
        { panelClasses := ["hidden"], btnText := "Show QC Thresholds ▼" }))
      = qcHidden { panelClasses := ["hidden"], btnText := "Show QC Thresholds ▼" } ∧
    (qcClick (qcClick
        { panelClasses := ["hidden"], btnText := "Show QC Thresholds ▼" })).btnText
      = "Show QC Thresholds ▼" :=
  ⟨(qc_double_toggle _).1, (qc_double_toggle _).2 (by decide)⟩

/-- C6 (counterexample): before the first toggle nothing forces the label
and the visibility to agree: a visible panel whose button already reads
the collapsed-state string `"Show QC Thresholds ▼"` violates the claimed
invariant, and no code of the component runs before the first click to
repair it. -/
theorem qc_initial_sync_can_fail :
    ¬ qcSync { panelClasses := [], btnText := "Show QC Thresholds ▼" } := by
  decide

/-- C6 (amended): after every click of the QC toggle handler the label and
the panel's visibility are in sync — the panel carries `"hidden"` exactly
when the label is the collapsed-state string; before the first click the
invariant holds only if the page's initial markup provides it. -/
theorem qc_sync_after_click (s : QcState) : qcSync (qcClick s) := by
  by_cases h : "hidden" ∈ s.panelClasses
  · simp [qcClick, classListToggle, h, qcSync, qcHidden, qcLabel,
      self_mem_classRemove_iff]
  · simp [qcClick, classListToggle, h, qcSync, qcHidden, qcLabel,
      self_mem_classAdd_iff]

/-- C7: clicking a button whose source-data attribute is absent writes the
`null` attribute-read result into the hidden field unchanged, raises no
rejection, and the remaining select steps still run: the active marker
still moves to the clicked button, and the mode group's section side
effect still fires (taking the non-`"single"` branch). -/
theorem missing_attr_written_through {n m : Nat} (s : GroupState n)
    (t : ModeState m) (i : Fin n) (k : Fin m)
    (h : (s.btns i).attr = none) (h2 : (t.modeBtns k).attr = none) :
    (groupClick s i).input = none ∧
    (∀ j : Fin n, "active" ∈ ((groupClick s i).btns j).classes ↔ j = i) ∧
    (modeClick t k).modeInput = none ∧
    (∀ j : Fin m, "active" ∈ ((modeClick t k).modeBtns j).classes ↔ j = k) ∧
    "hidden" ∈ (modeClick t k).singleSection ∧
    "hidden" ∉ (modeClick t k).multiSection := by
  refine ⟨?_, groupClick_active_iff s i, ?_, modeClick_active_iff t k, ?_, ?_⟩
  · simp [groupClick, h]
  · simp [modeClick, h2]
  · simp [modeClick, h2, self_mem_classAdd_iff]
  · simp [modeClick, h2, self_mem_classRemove_iff]

/-- C7 (witness): the one-button demo group and mode group whose buttons
carry no source-data attribute. -/
theorem missing_attr_written_through_witness :
    (groupClick demoNoAttr 0).input = none ∧
    (∀ j : Fin 1, "active" ∈ ((groupClick demoNoAttr 0).btns j).classes ↔ j = 0) ∧
    (modeClick demoModeNoAttr 0).modeInput = none ∧
    (∀ j : Fin 1,
      "active" ∈ ((modeClick demoModeNoAttr 0).modeBtns j).classes ↔ j = 0) ∧
    "hidden" ∈ (modeClick demoModeNoAttr 0).singleSection ∧
    "hidden" ∉ (modeClick demoModeNoAttr 0).multiSection :=
  missing_attr_written_through demoNoAttr demoModeNoAttr 0 0 rfl rfl

/-- C8: the handlers only ever add or remove the `"active"` and `"hidden"`
class names — membership of any other class name `c` in any element's
class list (group buttons, mode buttons, both mode sections, QC panel) is
untouched by every handler. -/
theorem only_active_and_hidden_touched (c : String)
    (hc1 : c ≠ "active") (hc2 : c ≠ "hidden") :
    (∀ (n : Nat) (s : GroupState n) (i j : Fin n),
      c ∈ ((groupClick s i).btns j).classes ↔ c ∈ (s.btns j).classes) ∧
    (∀ (m : Nat) (t : ModeState m) (k j : Fin m),
      (c ∈ ((modeClick t k).modeBtns j).classes ↔ c ∈ (t.modeBtns j).classes) ∧
      (c ∈ (modeClick t k).singleSection ↔ c ∈ t.singleSection) ∧
      (c ∈ (modeClick t k).multiSection ↔ c ∈ t.multiSection)) ∧
    (∀ u : QcState, c ∈ (qcClick u).panelClasses ↔ c ∈ u.panelClasses) := by
  refine ⟨?_, ?_, ?_⟩
  · intro n s i j
    by_cases hj : j = i <;>
      simp [groupClick, hj, mem_classAdd_of_ne hc1, mem_classRemove_of_ne hc1]
  · intro m t k j
    refine ⟨?_, ?_, ?_⟩
    · by_cases hj : j = k <;>
        simp [modeClick, hj, mem_classAdd_of_ne hc1, mem_classRemove_of_ne hc1]
    · by_cases h : (t.modeBtns k).attr = some "single" <;>
        simp [modeClick, h, mem_classAdd_of_ne hc2, mem_classRemove_of_ne hc2]
    · by_cases h : (t.modeBtns k).attr = some "single" <;>
        simp [modeClick, h, mem_classAdd_of_ne hc2, mem_classRemove_of_ne hc2]
  · intro u
    simp only [qcClick]
    exact mem_classListToggle_of_ne hc2

/-- C8 (witness): the class `"foo"` survives a QC toggle unchanged. -/
theorem only_active_and_hidden_touched_witness :
    "foo" ∈ (qcClick { panelClasses := ["foo"], btnText := "t" }).panelClasses ↔
      "foo" ∈ ({ panelClasses := ["foo"], btnText := "t" } : QcState).panelClasses :=
  (only_active_and_hidden_touched "foo" (by decide) (by decide)).2.2 _

/-- C9: every group click handler is idempotent — running the handler for
the same button twice in succession leaves the whole state (buttons,
hidden input, and for the mode group both sections) exactly as one run
does. -/
theorem click_idempotent {n m : Nat} (s : GroupState n) (t : ModeState m)
    (i : Fin n) (k : Fin m) :
    groupClick (groupClick s i) i = groupClick s i ∧
    modeClick (modeClick t k) k = modeClick t k := by
  constructor
  · apply GroupState.ext
    · funext j
      by_cases hj : j = i
      · subst hj
        simp [groupClick, classRemove_classAdd_classRemove]
      · simp [groupClick, hj, classRemove_classRemove]
    · simp [groupClick]
  · apply ModeState.ext
    · funext j
      by_cases hj : j = k
      · subst hj
        simp [modeClick, classRemove_classAdd_classRemove]
      · simp [modeClick, hj, classRemove_classRemove]
    · simp [modeClick]
    · by_cases h : (t.modeBtns k).attr = some "single" <;>
        simp [modeClick, h, classRemove_classRemove, classAdd_classAdd]
    · by_cases h : (t.modeBtns k).attr = some "single" <;>
        simp [modeClick, h, classRemove_classRemove, classAdd_classAdd]

/-- C10: clicking a mode button whose data-mode attribute is absent is
treated as a non-`"single"` selection: the single-section gets the
`"hidden"` class, the multi-section loses it, and the `null` read —
never the value `"single"` — is written to the mode input. -/
theorem mode_missing_attr_non_single {n : Nat} (s : ModeState n) (i : Fin n)
    (h : (s.modeBtns i).attr = none) :
    "hidden" ∈ (modeClick s i).singleSection ∧
    "hidden" ∉ (modeClick s i).multiSection ∧
    (modeClick s i).modeInput = none ∧
    (modeClick s i).modeInput ≠ some "single" := by
  refine ⟨?_, ?_, ?_, ?_⟩ <;>
    simp [modeClick, h, self_mem_classAdd_iff, self_mem_classRemove_iff]

/-- C10 (witness): the one-button demo mode group without a data-mode
attribute. -/
theorem mode_missing_attr_non_single_witness :
    "hidden" ∈ (modeClick demoModeNoAttr 0).singleSection ∧
    "hidden" ∉ (modeClick demoModeNoAttr 0).multiSection ∧
    (modeClick demoModeNoAttr 0).modeInput = none ∧
    (modeClick demoModeNoAttr 0).modeInput ≠ some "single" :=
  mode_missing_attr_non_single demoModeNoAttr 0 rfl
